import Mathlib

/-!
Shallow embedding of the yffigo Go bindings for the yrs CRDT engine.

The repository contains two Go binding packages over the C library
libyrs, plus example programs.  The first package (namespace `YrsA`
below) exposes a tag field output struct whose accessors return zero
values on a tag mismatch, and lifecycle functions without nil checks.
The second package (namespace `YrsB` below) exposes a pointer wrapping
output struct whose accessors return errors, nil checked lifecycle
functions, and `ApplyUpdate`.

The CRDT engine itself (the C functions `ymap_insert`, `ymap_get`,
`ymap_remove`, `ymap_iter_next`, `ytransaction_commit` and
`ytransaction_apply`) is not part of the Go sources; where a claim
depends on engine behaviour, the engine operation is modelled from the
specification, and the doc comment of each such definition says so.
Machine pointers are modelled as `Option Nat` (none is the nil
pointer); the 8 data bytes of the C value unions are modelled by the
`Payload` sum, whose string and buffer cases carry both the address of
the pointee and the pointee itself, so that an accessor that reads the
bytes of the stored pointer instead of dereferencing it can be embedded
faithfully; float64 values are modelled by their 8 byte bit pattern
(`F64`), since the bindings only copy those bytes and the Go literal
0.0 has bit pattern 0.
-/

/-- Type tag for JSON booleans, mirrored from the libyrs C header (the
header is external to the Go sources; only distinctness of the tag
values matters to the bindings). -/
def Y_JSON_BOOL : Int := -8

/-- Type tag for JSON floating point numbers. -/
def Y_JSON_NUM : Int := -7

/-- Type tag for JSON integers. -/
def Y_JSON_INT : Int := -6

/-- Type tag for JSON strings. -/
def Y_JSON_STR : Int := -5

/-- Type tag for JSON binary buffers. -/
def Y_JSON_BUF : Int := -4

/-- Flag value standing for true in boolean payloads. -/
def Y_TRUE : Int := 1

/-- Flag value standing for false in boolean payloads. -/
def Y_FALSE : Int := 0

/-- A float64 value, modelled by its 8 byte bit pattern. -/
structure F64 where
  bits : UInt64
deriving DecidableEq

/-- Meaning of the 8 data bytes of the C YInput and YOutput unions:
either an immediate int64, float64 or int8 flag, or a pointer to a NUL
terminated string or to a byte buffer whose length sits in the len
field. -/
inductive Payload where
  | pint : Int → Payload
  | pfloat : F64 → Payload
  | pflag : Int → Payload
  | pstr : Nat → String → Payload
  | pbuf : Nat → List UInt8 → Payload
deriving DecidableEq

/-- The eight little endian bytes of a 64 bit pointer value: what the
data array of the union physically holds for a string or buffer. -/
def leBytes8 (addr : Nat) : List UInt8 :=
  (List.range 8).map (fun i => UInt8.ofNat (addr / 256 ^ i % 256))

/-- What GoString reads at a byte sequence: the characters before the
first zero byte.  When no zero byte occurs among the given bytes the
real read continues out of bounds; that continuation is not modelled,
and the theorems below only evaluate this at addresses containing a
zero byte, where the model is exact. -/
def goStringOfBytes (bs : List UInt8) : String :=
  String.mk ((bs.takeWhile (fun b => b != 0)).map (fun b => Char.ofNat b.toNat))

/-- The C struct YOutput: a type tag, a length and the 8 data bytes.
The tag field binding copies this struct by value; the error returning
binding keeps a pointer to it. -/
structure COutput where
  tag : Int
  len : Nat
  data : Payload
deriving DecidableEq

/-- The Go struct YInput of the tag field binding: Tag, Len and the 8
data bytes. -/
structure YInput where
  Tag : Int
  Len : Nat
  Data : Payload
deriving DecidableEq

/-- Embeds NewYInputString: CString allocates a C copy of the string at
some address (passed here as the cstr parameter, since allocation is
outside the model) and the input data holds that pointer. -/
def NewYInputString (cstr : Nat) (value : String) : YInput :=
  ⟨Y_JSON_STR, 1, Payload.pstr cstr value⟩

/-- Embeds NewYInputInt: tag Y_JSON_INT, length 1, an immediate int64. -/
def NewYInputInt (value : Int) : YInput :=
  ⟨Y_JSON_INT, 1, Payload.pint value⟩

/-- Embeds NewYInputBool: tag Y_JSON_BOOL, length 1, an int8 flag. -/
def NewYInputBool (value : Bool) : YInput :=
  ⟨Y_JSON_BOOL, 1, Payload.pflag (if value then Y_TRUE else Y_FALSE)⟩

/-- Embeds NewYInputFloat: tag Y_JSON_NUM, length 1, a float64 bit
pattern. -/
def NewYInputFloat (value : F64) : YInput :=
  ⟨Y_JSON_NUM, 1, Payload.pfloat value⟩

/-- A scalar value as stored by the engine inside a map branch. -/
inductive YValue where
  | vbool : Bool → YValue
  | vint : Int → YValue
  | vfloat : F64 → YValue
  | vstr : String → YValue
  | vbuf : List UInt8 → YValue
deriving DecidableEq

/-- Modelled from the spec: how the engine renders a stored value as a
C YOutput struct (the tagged scalar of section 3; the engine is not
under the Go sources).  String and buffer payloads live in engine owned
memory at some address; alloc is that address, a parameter since the
allocator is outside the model. -/
def outputOfValue (alloc : Nat) : YValue → COutput
  | YValue.vbool b => ⟨Y_JSON_BOOL, 1, Payload.pflag (if b then Y_TRUE else Y_FALSE)⟩
  | YValue.vint n => ⟨Y_JSON_INT, 1, Payload.pint n⟩
  | YValue.vfloat f => ⟨Y_JSON_NUM, 1, Payload.pfloat f⟩
  | YValue.vstr s => ⟨Y_JSON_STR, 1, Payload.pstr alloc s⟩
  | YValue.vbuf bs => ⟨Y_JSON_BUF, bs.length, Payload.pbuf alloc bs⟩

/-- Outcome of a Go function call: a normal return, or a runtime panic
that crashes the program. -/
inductive GoResult (α : Type) where
  | ok : α → GoResult α
  | crashed : String → GoResult α
deriving DecidableEq

namespace Engine

/-- Modelled from the spec: the content of a map branch, a sequence of
key value bindings (section 3, MapEntry: key uniqueness holds at any
single snapshot). -/
abbrev MapState := List (String × YValue)

/-- Modelled from the spec: engine side reading of a YInput union by
its tag (ymap_insert consumes the tagged input, section 3, Value). -/
def valueOfInput (i : YInput) : YValue :=
  if i.Tag = Y_JSON_STR then
    match i.Data with
    | Payload.pstr _ s => YValue.vstr s
    | _ => YValue.vstr ""
  else if i.Tag = Y_JSON_INT then
    match i.Data with
    | Payload.pint n => YValue.vint n
    | _ => YValue.vint 0
  else if i.Tag = Y_JSON_NUM then
    match i.Data with
    | Payload.pfloat f => YValue.vfloat f
    | _ => YValue.vfloat ⟨0⟩
  else if i.Tag = Y_JSON_BOOL then
    match i.Data with
    | Payload.pflag f => YValue.vbool (f == Y_TRUE)
    | _ => YValue.vbool false
  else
    match i.Data with
    | Payload.pbuf _ bs => YValue.vbuf bs
    | _ => YValue.vbuf []

/-- Modelled from the spec: ymap_insert overwrites any existing binding
of the key and creates the key if absent (section 4.3). -/
def ymap_insert (m : MapState) (k : String) (v : YValue) : MapState :=
  match m with
  | [] => [(k, v)]
  | (k2, v2) :: rest =>
    if k2 = k then (k, v) :: rest else (k2, v2) :: ymap_insert rest k v

/-- Modelled from the spec: ymap_get returns the value bound to the key
or NULL when the key is absent (section 4.3). -/
def ymap_get (m : MapState) (k : String) : Option YValue :=
  match m with
  | [] => none
  | (k2, v) :: rest => if k2 = k then some v else ymap_get rest k

/-- Modelled from the spec: ymap_remove removes the binding of the key
and reports with a C result byte, 1 when a binding was removed and 0
otherwise (section 4.3). -/
def ymap_remove (m : MapState) (k : String) : MapState × UInt8 :=
  match m with
  | [] => ([], 0)
  | (k2, v) :: rest =>
    if k2 = k then (rest, 1)
    else ((k2, v) :: (ymap_remove rest k).1, (ymap_remove rest k).2)

/-- Modelled from the spec: the state of a map iterator, the sequence
of entries not yet produced (section 4.6). -/
abbrev IterState := List (String × YValue)

/-- Modelled from the spec: ymap_iter_next yields the next entry, or
NULL once the iterator is exhausted, never an error (section 4.6). -/
def ymap_iter_next (it : IterState) : IterState × Option (String × YValue) :=
  match it with
  | [] => ([], none)
  | e :: rest => (rest, some e)

/-- Iterator state after n further calls of ymap_iter_next. -/
def iterStateAfter : IterState → Nat → IterState
  | it, 0 => it
  | it, n + 1 => iterStateAfter (ymap_iter_next it).1 n

/-- Modelled from the spec: a document, its map branch content plus the
logical clock advanced by commits (section 3, section 4.1). -/
structure Doc where
  map : MapState
  clock : Nat
deriving DecidableEq

/-- Modelled from the spec: ytransaction_commit finalizes the buffered
operations atomically and advances the logical clock; the document
content persists (section 4.1). -/
def ytransaction_commit (d : Doc) : Doc :=
  ⟨d.map, d.clock + 1⟩

/-- Modelled from the spec: one operation of a causal delta, carrying a
replica id, a logical clock value, a key and a value byte (section 4.1
and the glossary). -/
structure Op where
  replica : UInt8
  clock : UInt8
  key : UInt8
  value : UInt8
deriving DecidableEq

/-- Codec failures of section 7: malformed bytes, or an unsupported
encoding version. -/
inductive CodecErr where
  | codecError
  | versionError
deriving DecidableEq

/-- Modelled from the spec: the body decoder of the update codec; each
operation occupies four bytes and leftover bytes are malformed, making
the decode all or nothing (section 4.7, section 7). -/
def decodeOps : List UInt8 → Except CodecErr (List Op)
  | [] => Except.ok []
  | r :: c :: k :: v :: rest =>
    match decodeOps rest with
    | Except.ok ops => Except.ok (Op.mk r c k v :: ops)
    | Except.error e => Except.error e
  | _ => Except.error CodecErr.codecError

/-- Modelled from the spec: decode checks a leading version tag,
rejects unknown versions, then decodes the operation list; the empty
input has no version tag and is malformed (section 4.7). -/
def decodeUpdate : List UInt8 → Except CodecErr (List Op)
  | [] => Except.error CodecErr.codecError
  | v :: rest => if v = 0 then decodeOps rest else Except.error CodecErr.versionError

/-- Modelled from the spec: ytransaction_apply decodes the update and,
on success, merges its operations into the document state by set union
of operations, which makes the merge commutative, associative and
idempotent; a failed decode leaves the state untouched (section 4.1,
section 7, glossary CRDT).  Returns the new state and the error, if
any. -/
def ytransaction_apply (s : Finset Op) (u : List UInt8) : Finset Op × Option CodecErr :=
  match decodeUpdate u with
  | Except.ok ops => (s ∪ ops.toFinset, none)
  | Except.error e => (s, some e)

end Engine

namespace YrsA

/-- Embeds GetValueAsString of the tag field binding.  On a tag match
the Go body casts the address of the data array itself to a char
pointer without loading the stored char pointer from the union, so
GoString reads the bytes of the pointer value as characters and never
the pointee: modelled by goStringOfBytes over the little endian bytes
of the address.  On a tag mismatch it returns the empty string. -/
def GetValueAsString (output : COutput) : String :=
  if output.tag = Y_JSON_STR then
    match output.data with
    | Payload.pstr addr _ => goStringOfBytes (leBytes8 addr)
    | _ => ""
  else ""

/-- Embeds GetValueAsInt of the tag field binding: the int64 when the
tag is Y_JSON_INT, 0 otherwise. -/
def GetValueAsInt (output : COutput) : Int :=
  if output.tag = Y_JSON_INT then
    match output.data with
    | Payload.pint n => n
    | _ => 0
  else 0

/-- Embeds GetValueAsFloat of the tag field binding: the float64 when
the tag is Y_JSON_NUM, 0.0 (bit pattern 0) otherwise. -/
def GetValueAsFloat (output : COutput) : F64 :=
  if output.tag = Y_JSON_NUM then
    match output.data with
    | Payload.pfloat f => f
    | _ => ⟨0⟩
  else ⟨0⟩

/-- Embeds GetValueAsBool of the tag field binding: the flag compared
with Y_TRUE when the tag is Y_JSON_BOOL, false otherwise. -/
def GetValueAsBool (output : COutput) : Bool :=
  if output.tag = Y_JSON_BOOL then
    match output.data with
    | Payload.pflag f => f == Y_TRUE
    | _ => false
  else false

/-- Embeds GetValueAsBytes of the tag field binding.  On a tag match
the Go body passes the address of the data array itself to GoBytes
without loading the stored buffer pointer, reading len of the bytes of
the pointer value; for len above 8 the real read continues out of
bounds, which is not modelled (take stops at the 8 available bytes).
On a tag mismatch it returns the nil slice (none). -/
def GetValueAsBytes (output : COutput) : Option (List UInt8) :=
  if output.tag = Y_JSON_BUF then
    some (match output.data with
      | Payload.pbuf addr _ => (leBytes8 addr).take output.len
      | _ => [])
  else none

/-- Embeds Branch.YMapInsert of the tag field binding: converts the
input struct and calls the engine ymap_insert. -/
def YMapInsert (m : Engine.MapState) (key : String) (value : YInput) : Engine.MapState :=
  Engine.ymap_insert m key (Engine.valueOfInput value)

/-- Embeds Branch.YMapGet of the tag field binding: calls the engine
ymap_get and copies the returned C output struct field by field, NULL
mapping to nil; alloc is the engine side address of a string or buffer
payload. -/
def YMapGet (alloc : Nat) (m : Engine.MapState) (key : String) : Option COutput :=
  match (Engine.ymap_get m key).map (outputOfValue alloc) with
  | none => none
  | some o => some ⟨o.tag, o.len, o.data⟩

/-- Embeds Branch.YMapRemove of the tag field binding: calls the engine
ymap_remove and compares the C result byte with 0. -/
def YMapRemove (m : Engine.MapState) (key : String) : Engine.MapState × Bool :=
  ((Engine.ymap_remove m key).1, (Engine.ymap_remove m key).2 != 0)

/-- A key value entry of the tag field binding: the output struct is
held by value. -/
structure YMapEntry where
  Key : String
  Value : COutput
deriving DecidableEq

/-- Embeds YMapIterNext, the first iterator function of the tag field
binding: calls the engine ymap_iter_next, NULL mapping to nil,
otherwise copying the key and the value struct fields; alloc is the
engine side address of a string or buffer payload. -/
def YMapIterNext (alloc : Nat) (it : Engine.IterState) :
    Engine.IterState × Option YMapEntry :=
  match Engine.ymap_iter_next it with
  | (it2, none) => (it2, none)
  | (it2, some e) => (it2, some ⟨e.1, outputOfValue alloc e.2⟩)

/-- Embeds YMapEntryNext, the second iterator function of the tag field
binding, whose Go body performs the same copies as YMapIterNext up to
the spelling of one byte cast. -/
def YMapEntryNext (alloc : Nat) (it : Engine.IterState) :
    Engine.IterState × Option YMapEntry :=
  match Engine.ymap_iter_next it with
  | (it2, none) => (it2, none)
  | (it2, some e) => (it2, some ⟨e.1, outputOfValue alloc e.2⟩)

/-- A transaction handle of the tag field binding: a possibly nil C
pointer. -/
structure YTransaction where
  ptr : Option Nat
deriving DecidableEq

/-- Embeds Commit of the tag field binding: calls ytransaction_commit
on the stored pointer without a nil check, then sets the pointer to
nil.  The second component records the pointer values this call passes
to the engine. -/
def Commit (t : YTransaction) : YTransaction × List (Option Nat) :=
  (⟨none⟩, [t.ptr])

end YrsA

namespace YrsB

/-- Error text of the string accessor of the error returning binding. -/
def errNotString : String := "value is not a string"

/-- Error text of the integer accessor of the error returning binding. -/
def errNotInteger : String := "value is not an integer"

/-- Error text of the boolean accessor of the error returning binding. -/
def errNotBoolean : String := "value is not a boolean"

/-- Error text returned by ApplyUpdate on a nonzero engine result. -/
def errApplyFailed : String := "failed to apply update"

/-- The Go runtime panic message for indexing an empty slice. -/
def msgIndexOutOfRange : String := "runtime error: index out of range [0] with length 0"

/-- Embeds GetValueAsString of the error returning binding: this body
loads the stored char pointer from the union with a double pointer cast
and a dereference, so on a tag match it returns the pointee string; on
a tag mismatch it returns an error. -/
def GetValueAsString (yo : COutput) : Except String String :=
  if yo.tag = Y_JSON_STR then
    match yo.data with
    | Payload.pstr _ s => Except.ok s
    | _ => Except.ok ""
  else Except.error errNotString

/-- Embeds GetValueAsInt of the error returning binding: the int64 when
the tag is Y_JSON_INT, an error otherwise. -/
def GetValueAsInt (yo : COutput) : Except String Int :=
  if yo.tag = Y_JSON_INT then
    match yo.data with
    | Payload.pint n => Except.ok n
    | _ => Except.ok 0
  else Except.error errNotInteger

/-- Embeds GetValueAsBool of the error returning binding: the flag
compared with Y_TRUE when the tag is Y_JSON_BOOL, an error otherwise. -/
def GetValueAsBool (yo : COutput) : Except String Bool :=
  if yo.tag = Y_JSON_BOOL then
    match yo.data with
    | Payload.pflag f => Except.ok (f == Y_TRUE)
    | _ => Except.ok false
  else Except.error errNotBoolean

/-- Embeds NewYOutput of the error returning binding: nil maps to nil,
otherwise the pointer is wrapped. -/
def NewYOutput (ptr : Option COutput) : Option COutput :=
  match ptr with
  | none => none
  | some p => some p

/-- A key value entry of the error returning binding: the value is a
possibly nil pointer to the C output struct. -/
structure YMapEntry where
  Key : String
  Value : Option COutput
deriving DecidableEq

/-- Embeds YMapEntryNext of the error returning binding: calls the
engine ymap_iter_next, NULL mapping to nil, otherwise the key and a
wrapped pointer to the entry value; alloc is the engine side address of
a string or buffer payload. -/
def YMapEntryNext (alloc : Nat) (it : Engine.IterState) :
    Engine.IterState × Option YMapEntry :=
  match Engine.ymap_iter_next it with
  | (it2, none) => (it2, none)
  | (it2, some e) => (it2, some ⟨e.1, NewYOutput (some (outputOfValue alloc e.2))⟩)

/-- A document handle of the error returning binding. -/
structure YDoc where
  ptr : Option Nat
deriving DecidableEq

/-- A transaction handle of the error returning binding. -/
structure YTransaction where
  ptr : Option Nat
deriving DecidableEq

/-- An iterator handle of the error returning binding. -/
structure YMapIter where
  ptr : Option Nat
deriving DecidableEq

/-- Errors a binding layer could report; the error returning binding
never constructs invalidHandle, as the theorems below record. -/
inductive BindingError where
  | invalidHandle
  | message : String → BindingError
deriving DecidableEq

/-- Embeds Destroy of the error returning binding: only when the
pointer is not nil it calls ydoc_destroy and sets the pointer to nil.
The second component counts the engine calls this invocation makes. -/
def Destroy (d : YDoc) : YDoc × Nat :=
  match d.ptr with
  | some _ => (⟨none⟩, 1)
  | none => (d, 0)

/-- Embeds Commit of the error returning binding: only when the pointer
is not nil it calls ytransaction_commit and sets the pointer to nil.
The Go signature returns no value, so the error component is constantly
none; the middle component counts the engine calls this invocation
makes. -/
def Commit (t : YTransaction) : YTransaction × Nat × Option BindingError :=
  match t.ptr with
  | some _ => (⟨none⟩, 1, none)
  | none => (t, 0, none)

/-- Embeds YMapIterDestroy of the error returning binding: only when
the pointer is not nil it calls ymap_iter_destroy and sets the pointer
to nil.  The second component counts the engine calls. -/
def YMapIterDestroy (it : YMapIter) : YMapIter × Nat :=
  match it.ptr with
  | some _ => (⟨none⟩, 1)
  | none => (it, 0)

/-- Embeds ApplyUpdate of the error returning binding: the Go body
first takes the address of update[0], which panics when the slice is
empty, then calls ytransaction_apply and turns a nonzero result code
into the generic error string.  The engine call itself is modelled from
the spec. -/
def ApplyUpdate (s : Finset Engine.Op) (update : List UInt8) :
    GoResult (Finset Engine.Op × Option String) :=
  match update with
  | [] => GoResult.crashed msgIndexOutOfRange
  | _ :: _ =>
    match Engine.ytransaction_apply s update with
    | (s2, some _) => GoResult.ok (s2, some errApplyFailed)
    | (s2, none) => GoResult.ok (s2, none)

end YrsB

/-- Helper: ymap_get after ymap_insert of the same key returns the
inserted value. -/
theorem Engine.ymap_get_insert (m : Engine.MapState) (k : String) (v : YValue) :
    Engine.ymap_get (Engine.ymap_insert m k v) k = some v := by
  induction m with
  | nil => simp [Engine.ymap_insert, Engine.ymap_get]
  | cons hd tl ih =>
    obtain ⟨k2, v2⟩ := hd
    by_cases h : k2 = k
    · simp [Engine.ymap_insert, Engine.ymap_get, h]
    · simp [Engine.ymap_insert, Engine.ymap_get, h, ih]

/-- Helper: a key that occurs in no binding is absent from ymap_get. -/
theorem Engine.ymap_get_not_mem (m : Engine.MapState) (k : String)
    (h : k ∉ m.map Prod.fst) : Engine.ymap_get m k = none := by
  induction m with
  | nil => rfl
  | cons hd tl ih =>
    obtain ⟨k2, v⟩ := hd
    simp only [List.map_cons, List.mem_cons] at h
    push_neg at h
    have hne : ¬ k2 = k := fun hh => h.1 hh.symm
    simp [Engine.ymap_get, hne, ih h.2]

/-- Helper: the result byte of ymap_remove is 1 exactly when the key is
present. -/
theorem Engine.ymap_remove_flag (m : Engine.MapState) (k : String) :
    (Engine.ymap_remove m k).2 = if (Engine.ymap_get m k).isSome then 1 else 0 := by
  induction m with
  | nil => rfl
  | cons hd tl ih =>
    obtain ⟨k2, v⟩ := hd
    by_cases h : k2 = k
    · simp [Engine.ymap_remove, Engine.ymap_get, h]
    · simp [Engine.ymap_remove, Engine.ymap_get, h, ih]

/-- Helper: removing an absent key leaves the map content unchanged. -/
theorem Engine.ymap_remove_absent (m : Engine.MapState) (k : String)
    (h : Engine.ymap_get m k = none) : (Engine.ymap_remove m k).1 = m := by
  induction m with
  | nil => rfl
  | cons hd tl ih =>
    obtain ⟨k2, v⟩ := hd
    by_cases hk : k2 = k
    · simp [Engine.ymap_get, hk] at h
    · simp only [Engine.ymap_get, hk, if_false] at h
      simp [Engine.ymap_remove, hk, ih h]

/-- Helper: with pairwise distinct keys, the removed key is absent from
the map returned by ymap_remove. -/
theorem Engine.ymap_remove_nodup (m : Engine.MapState) (k : String)
    (h : (m.map Prod.fst).Nodup) :
    Engine.ymap_get (Engine.ymap_remove m k).1 k = none := by
  induction m with
  | nil => rfl
  | cons hd tl ih =>
    obtain ⟨k2, v⟩ := hd
    simp only [List.map_cons, List.nodup_cons] at h
    by_cases hk : k2 = k
    · subst hk
      simp only [Engine.ymap_remove, if_pos rfl]
      exact Engine.ymap_get_not_mem tl k2 h.1
    · simp [Engine.ymap_remove, hk, Engine.ymap_get, ih h.2]

/-- Helper: the iterator state stays empty under repeated calls of
ymap_iter_next. -/
theorem Engine.iterStateAfter_nil (n : Nat) :
    Engine.iterStateAfter [] n = [] := by
  induction n with
  | zero => rfl
  | succ n ih =>
    simp only [Engine.iterStateAfter, Engine.ymap_iter_next]
    exact ih

/-- C1: applying the same update bytes twice through the engine apply
operation yields the same document state as applying them once, for
every state and every byte sequence (a failed decode leaves the state
untouched both times). -/
theorem apply_update_idempotent (s : Finset Engine.Op) (u : List UInt8) :
    (Engine.ytransaction_apply (Engine.ytransaction_apply s u).1 u).1 =
      (Engine.ytransaction_apply s u).1 := by
  cases h : Engine.decodeUpdate u with
  | ok ops => simp [Engine.ytransaction_apply, h, Finset.union_assoc, Finset.union_self]
  | error e => simp [Engine.ytransaction_apply, h]

/-- C2: evaluating ApplyUpdate of the error returning binding at the
empty byte slice reproduces the Go runtime panic: the body takes the
address of update[0] before any engine call, so the empty slice crashes
instead of returning a codec error. -/
theorem apply_update_empty_slice_crashes :
    YrsB.ApplyUpdate (∅ : Finset Engine.Op) [] =
      GoResult.crashed YrsB.msgIndexOutOfRange := rfl

/-- C3: evaluating the insert, commit, get pipeline of the tag field
binding.  For every starting document, key, inserted string and
addresses, GetValueAsString returns the bytes of the output value
pointer read as a C string, a value depending only on that address and
never on the inserted string, because the Go body omits the dereference
of the stored char pointer that the error returning binding and
YInput.Free both perform; at the concrete failing input of Scenario A
(insert value1 under key1, output struct address 0x2000) the read is
the empty string, not value1. -/
theorem map_insert_get_returns_pointer_bytes :
    (∀ (d : Engine.Doc) (key s : String) (cstr alloc : Nat),
      ((YrsA.YMapGet alloc
          (Engine.ytransaction_commit
            (Engine.Doc.mk (YrsA.YMapInsert d.map key (NewYInputString cstr s)) d.clock)).map
          key).map YrsA.GetValueAsString) = some (goStringOfBytes (leBytes8 alloc)))
    ∧ ((YrsA.YMapGet 0x2000
          (Engine.ytransaction_commit
            (Engine.Doc.mk (YrsA.YMapInsert [] "key1" (NewYInputString 0x1000 "value1")) 0)).map
          "key1").map YrsA.GetValueAsString) ≠ some "value1" := by
  constructor
  · intro d key s cstr alloc
    have hget := Engine.ymap_get_insert d.map key (YValue.vstr s)
    simp [YrsA.YMapGet, YrsA.YMapInsert, Engine.valueOfInput, NewYInputString,
      Engine.ytransaction_commit, hget, YrsA.GetValueAsString, outputOfValue,
      Y_JSON_STR]
  · decide

/-- C4 counterexample: committing a fresh transaction handle twice in
the error returning binding, the second Commit returns no error at all,
in particular not an InvalidHandleError, performs no engine call, and
leaves the handle unchanged, so the claim that a second Commit fails
with InvalidHandleError is false. -/
theorem commit_twice_silent_counterexample :
    (YrsB.Commit (YrsB.Commit ⟨some 7⟩).1).2.2 = none
    ∧ (YrsB.Commit (YrsB.Commit ⟨some 7⟩).1).2.1 = 0
    ∧ (YrsB.Commit (YrsB.Commit ⟨some 7⟩).1).1 = (YrsB.Commit ⟨some 7⟩).1 :=
  ⟨rfl, rfl, rfl⟩

/-- C4 amended: Commit is terminal only in that the handle pointer
becomes nil; a second Commit in the error returning binding is a silent
no op with no engine call and no error, and in the tag field binding it
passes the nil pointer straight to the engine; no InvalidHandleError is
produced at the binding layer. -/
theorem commit_terminal_amended :
    (∀ p : Nat, YrsB.Commit ⟨some p⟩ = (⟨none⟩, 1, none))
    ∧ YrsB.Commit ⟨none⟩ = (⟨none⟩, 0, none)
    ∧ (∀ t : YrsA.YTransaction, (YrsA.Commit t).1.ptr = none)
    ∧ (YrsA.Commit ⟨none⟩).2 = [none] :=
  ⟨fun _ => rfl, rfl, fun _ => rfl, rfl⟩

/-- C5: YMapRemove returns true exactly when the key is present;
removing an absent key returns false and leaves the map content
unchanged; and with pairwise distinct keys the removed key is absent
afterwards. -/
theorem ymap_remove_spec (m : Engine.MapState) (k : String) :
    ((YrsA.YMapRemove m k).2 = true ↔ (Engine.ymap_get m k).isSome = true)
    ∧ (Engine.ymap_get m k = none → (YrsA.YMapRemove m k).1 = m)
    ∧ ((m.map Prod.fst).Nodup →
        Engine.ymap_get (YrsA.YMapRemove m k).1 k = none) := by
  refine ⟨?_, ?_, ?_⟩
  · show ((Engine.ymap_remove m k).2 != 0) = true ↔ (Engine.ymap_get m k).isSome = true
    rw [Engine.ymap_remove_flag]
    cases hs : (Engine.ymap_get m k).isSome <;> decide
  · intro h
    show (Engine.ymap_remove m k).1 = m
    exact Engine.ymap_remove_absent m k h
  · intro h
    show Engine.ymap_get (Engine.ymap_remove m k).1 k = none
    exact Engine.ymap_remove_nodup m k h

/-- C5 witness: removing the absent key key1 from a one binding map
returns the map unchanged and the key stays absent. -/
theorem ymap_remove_spec_witness :
    Engine.ymap_get [("k0", YValue.vint 1)] "key1" = none
    ∧ (YrsA.YMapRemove [("k0", YValue.vint 1)] "key1").1 = [("k0", YValue.vint 1)]
    ∧ Engine.ymap_get (YrsA.YMapRemove [("k0", YValue.vint 1)] "key1").1 "key1" = none :=
  ⟨by decide,
   (ymap_remove_spec [("k0", YValue.vint 1)] "key1").2.1 (by decide),
   (ymap_remove_spec [("k0", YValue.vint 1)] "key1").2.2 (by decide)⟩

/-- C6: a read through a wrong type accessor yields the empty string in
the tag field binding and an error result in the error returning
binding, for every output whose tag mismatches, and the accessors are
total, so no such read crashes. -/
theorem mismatched_accessor_no_crash (o : COutput) :
    (o.tag ≠ Y_JSON_STR → YrsA.GetValueAsString o = "")
    ∧ (o.tag ≠ Y_JSON_STR → YrsB.GetValueAsString o = Except.error YrsB.errNotString)
    ∧ (o.tag ≠ Y_JSON_INT → YrsB.GetValueAsInt o = Except.error YrsB.errNotInteger)
    ∧ (o.tag ≠ Y_JSON_BOOL → YrsB.GetValueAsBool o = Except.error YrsB.errNotBoolean) := by
  refine ⟨fun h => ?_, fun h => ?_, fun h => ?_, fun h => ?_⟩
  · simp [YrsA.GetValueAsString, h]
  · simp [YrsB.GetValueAsString, h]
  · simp [YrsB.GetValueAsInt, h]
  · simp [YrsB.GetValueAsBool, h]

/-- C6 witness: reading an int output as a string returns the empty
string in the tag field binding and the type error in the error
returning binding. -/
theorem mismatched_accessor_no_crash_witness :
    YrsA.GetValueAsString ⟨Y_JSON_INT, 1, Payload.pint 123⟩ = ""
    ∧ YrsB.GetValueAsString ⟨Y_JSON_INT, 1, Payload.pint 123⟩ =
        Except.error YrsB.errNotString :=
  ⟨(mismatched_accessor_no_crash ⟨Y_JSON_INT, 1, Payload.pint 123⟩).1 (by decide),
   (mismatched_accessor_no_crash ⟨Y_JSON_INT, 1, Payload.pint 123⟩).2.1 (by decide)⟩

/-- C7: once a map iterator is exhausted, every further next call in
either binding returns nil and leaves the iterator exhausted, no matter
how many calls are made. -/
theorem exhausted_iterator_next_nil (alloc n : Nat) :
    Engine.iterStateAfter [] n = []
    ∧ (YrsB.YMapEntryNext alloc (Engine.iterStateAfter [] n)).2 = none
    ∧ (YrsA.YMapEntryNext alloc (Engine.iterStateAfter [] n)).2 = none := by
  have h := Engine.iterStateAfter_nil n
  refine ⟨h, ?_, ?_⟩ <;> rw [h] <;> rfl

/-- C8: the two iterator functions of the tag field binding agree on
every iterator state, and both return nil exactly on the exhausted
state. -/
theorem map_iter_apis_equivalent (alloc : Nat) (it : Engine.IterState) :
    YrsA.YMapIterNext alloc it = YrsA.YMapEntryNext alloc it
    ∧ ((YrsA.YMapIterNext alloc it).2 = none ↔ it = []) := by
  cases it with
  | nil => exact ⟨rfl, by simp [YrsA.YMapIterNext, Engine.ymap_iter_next]⟩
  | cons e rest => exact ⟨rfl, by simp [YrsA.YMapIterNext, Engine.ymap_iter_next]⟩

/-- C9: in the error returning binding, Destroy, Commit and
YMapIterDestroy set the handle pointer to nil on a live handle with one
engine call, and every call on a nil handle is a no op that leaves the
handle unchanged and makes no engine call. -/
theorem lifecycle_ops_idempotent :
    (∀ p : Nat, YrsB.Destroy ⟨some p⟩ = (⟨none⟩, 1))
    ∧ YrsB.Destroy ⟨none⟩ = (⟨none⟩, 0)
    ∧ (∀ p : Nat, YrsB.Commit ⟨some p⟩ = (⟨none⟩, 1, none))
    ∧ YrsB.Commit ⟨none⟩ = (⟨none⟩, 0, none)
    ∧ (∀ p : Nat, YrsB.YMapIterDestroy ⟨some p⟩ = (⟨none⟩, 1))
    ∧ YrsB.YMapIterDestroy ⟨none⟩ = (⟨none⟩, 0) :=
  ⟨fun _ => rfl, rfl, fun _ => rfl, rfl, fun _ => rfl, rfl⟩

/-- C10 counterexample: a genuinely stored empty string in an output
struct at address 0x4241 reads back as the string AB, the characters of
the two nonzero address bytes, while a wrong type read returns the
empty string, so the two are distinguishable and the claimed
indistinguishability is false at this concrete input. -/
theorem stored_empty_string_distinguishable :
    YrsA.GetValueAsString (outputOfValue 0x4241 (YValue.vstr "")) = "AB"
    ∧ YrsA.GetValueAsString ⟨Y_JSON_INT, 1, Payload.pint 0⟩ = ""
    ∧ YrsA.GetValueAsString (outputOfValue 0x4241 (YValue.vstr ""))
        ≠ YrsA.GetValueAsString ⟨Y_JSON_INT, 1, Payload.pint 0⟩ := by
  refine ⟨?_, ?_, ?_⟩ <;> decide

/-- C10 amended: every tag field accessor returns the zero value of its
result type whenever the output tag mismatches the requested kind; for
int, float and bool a genuinely stored zero value returns the same zero
value and is hence indistinguishable from a wrong type read, but for
strings and buffers the tag match read returns the bytes of the stored
pointer, so a stored empty string is in general distinguishable. -/
theorem accessor_zero_on_mismatch_amended (o : COutput) :
    (o.tag ≠ Y_JSON_STR → YrsA.GetValueAsString o = "")
    ∧ (o.tag ≠ Y_JSON_INT → YrsA.GetValueAsInt o = 0)
    ∧ (o.tag ≠ Y_JSON_NUM → YrsA.GetValueAsFloat o = ⟨0⟩)
    ∧ (o.tag ≠ Y_JSON_BOOL → YrsA.GetValueAsBool o = false)
    ∧ (o.tag ≠ Y_JSON_BUF → YrsA.GetValueAsBytes o = none)
    ∧ (YrsA.GetValueAsInt (outputOfValue 0 (YValue.vint 0)) = 0
       ∧ YrsA.GetValueAsFloat (outputOfValue 0 (YValue.vfloat ⟨0⟩)) = ⟨0⟩
       ∧ YrsA.GetValueAsBool (outputOfValue 0 (YValue.vbool false)) = false) := by
  refine ⟨fun h => ?_, fun h => ?_, fun h => ?_, fun h => ?_, fun h => ?_, by decide⟩
  · simp [YrsA.GetValueAsString, h]
  · simp [YrsA.GetValueAsInt, h]
  · simp [YrsA.GetValueAsFloat, h]
  · simp [YrsA.GetValueAsBool, h]
  · simp [YrsA.GetValueAsBytes, h]

/-- C10 witness: a string output read as int, float, bool or bytes
gives 0, bit pattern 0, false and nil, and an int output read as a
string gives the empty string. -/
theorem accessor_zero_on_mismatch_amended_witness :
    YrsA.GetValueAsInt ⟨Y_JSON_STR, 1, Payload.pstr 0x1000 "v"⟩ = 0
    ∧ YrsA.GetValueAsFloat ⟨Y_JSON_STR, 1, Payload.pstr 0x1000 "v"⟩ = ⟨0⟩
    ∧ YrsA.GetValueAsBool ⟨Y_JSON_STR, 1, Payload.pstr 0x1000 "v"⟩ = false
    ∧ YrsA.GetValueAsBytes ⟨Y_JSON_STR, 1, Payload.pstr 0x1000 "v"⟩ = none
    ∧ YrsA.GetValueAsString ⟨Y_JSON_INT, 1, Payload.pint 5⟩ = "" :=
  ⟨(accessor_zero_on_mismatch_amended ⟨Y_JSON_STR, 1, Payload.pstr 0x1000 "v"⟩).2.1 (by decide),
   (accessor_zero_on_mismatch_amended ⟨Y_JSON_STR, 1, Payload.pstr 0x1000 "v"⟩).2.2.1 (by decide),
   (accessor_zero_on_mismatch_amended ⟨Y_JSON_STR, 1, Payload.pstr 0x1000 "v"⟩).2.2.2.1 (by decide),
   (accessor_zero_on_mismatch_amended ⟨Y_JSON_STR, 1, Payload.pstr 0x1000 "v"⟩).2.2.2.2.1 (by decide),
   (accessor_zero_on_mismatch_amended ⟨Y_JSON_INT, 1, Payload.pint 5⟩).1 (by decide)⟩
